import Mathlib

/-!
Shallow embedding of the transaction and warehouse subsystem of the
sevla-d-oro repository (src/transaction_system.py, src/warehouse_system.py).

Modelling conventions:
* Python floats become exact rationals (`ℚ`).  Python's `round(x, 2)` applies
  banker's rounding to the binary double; we model it as nearest-integer
  rounding of `x * 100`.  The two agree except at exact decimal half-ties,
  which never occur in any quantity this development evaluates.
* `datetime.now()` becomes an explicit time parameter `now : ℚ`, measured in
  hours (so `timedelta(hours=h)` is `+ h` and `timedelta(days=7)` is `+ 7*24`).
* The Python `dict` `self.active_codes` becomes an association list
  `List (String × Quotation)`; a fresh key is appended at the end, matching
  dict insertion order.  Disk persistence (`_save_codes`, `_save_transactions`)
  has no observable effect on the in-memory state and is dropped.
* `random.choices` is replaced by an explicit list of candidate draws; the
  unbounded `while True` rejection loop becomes `List.find?` over the draws,
  returning `none` when every supplied draw collides.
* A raised exception (`ValueError`, and the `ZeroDivisionError` of the
  percent computation on a zero estimate) becomes `Except.error` carrying
  the message.
-/

set_option allowUnsafeReducibility true

attribute [semireducible] Rat.mul Rat.add Rat.sub Rat.inv Rat.ofScientific

/-- `round(x, 2)` of Python, on exact rationals: nearest-integer rounding of
`x * 100` (written via `Rat.floor` so that it evaluates by kernel reduction). -/
def round2 (x : ℚ) : ℚ := ((x * 100 + 1/2).floor : ℤ) / 100

/-- A quotation record as stored in `active_codes` (see `create_quotation`). -/
structure Quotation where
  code : String
  phone : String
  material : String
  estimated_kg : ℚ
  price_per_kg : ℚ
  total_estimated : ℚ
  created_at : ℚ
  expires_at : ℚ
  status : String
  photo_url : Option String
  verified : Bool
  transaction_id : Option String
deriving DecidableEq, Repr

/-- A completed transaction record (see `complete_transaction`). -/
structure Transaction where
  transaction_id : String
  code : String
  phone : String
  material : String
  estimated_kg : ℚ
  actual_kg : ℚ
  weight_difference_kg : ℚ
  weight_difference_percent : ℚ
  price_per_kg : ℚ
  total_amount : ℚ
  payment_method : String
  warehouse_id : String
  initial_photo_url : Option String
  final_photo_url : Option String
  created_at : ℚ
  completed_at : ℚ
  notes : Option String
  status : String
deriving DecidableEq, Repr

/-- The in-memory state of `TransactionSystem`: `self.active_codes` and
`self.transactions`. -/
structure TxState where
  activeCodes : List (String × Quotation)
  transactions : List Transaction
deriving DecidableEq, Repr

/-- Key lookup in the association list modelling the `active_codes` dict. -/
def lookupCode : List (String × Quotation) → String → Option Quotation
  | [], _ => none
  | (c, q) :: rest, code => if c = code then some q else lookupCode rest code

/-- In-place mutation of the dict value at a key: replaces the value of the
first entry with the given key. -/
def updateCode : List (String × Quotation) → String → Quotation →
    List (String × Quotation)
  | [], _, _ => []
  | (c, q) :: rest, code, q' =>
    if c = code then (c, q') :: rest else (c, q) :: updateCode rest code q'

/-- `generate_unique_code`: rejection sampling over the supplied draws — the
first draw whose `'#'`-prefixed form is not already a key of `active_codes`. -/
def generate_unique_code (draws : List String)
    (active : List (String × Quotation)) : Option String :=
  (draws.map (fun d => "#" ++ d)).find? (fun c => (lookupCode active c).isNone)

/-- `create_quotation`: builds the quotation record and inserts it under its
fresh code.  Returns `none` when every candidate draw collides (in Python the
rejection loop would not terminate). -/
def create_quotation (draws : List String) (now : ℚ) (s : TxState)
    (phone material : String) (estimated_kg price_per_kg valid_hours : ℚ) :
    Option (Quotation × TxState) :=
  match generate_unique_code draws s.activeCodes with
  | none => none
  | some code =>
    let q : Quotation :=
      { code := code
        phone := phone
        material := material
        estimated_kg := estimated_kg
        price_per_kg := price_per_kg
        total_estimated := round2 (estimated_kg * price_per_kg)
        created_at := now
        expires_at := now + valid_hours
        status := "pending"
        photo_url := none
        verified := false
        transaction_id := none }
    some (q, { s with activeCodes := s.activeCodes ++ [(code, q)] })

/-- `validate_code`: not-found / expired (with the lazy status flip) /
already-used checks, in source order.  Returns the `(is_valid, error)` pair
together with the possibly-mutated state. -/
def validate_code (now : ℚ) (s : TxState) (code : String) :
    (Bool × Option String) × TxState :=
  match lookupCode s.activeCodes code with
  | none => ((false, some "Código no existe"), s)
  | some quotation =>
    if quotation.expires_at < now then
      ((false, some "Código expirado (válido 24h)"),
        { s with activeCodes :=
            updateCode s.activeCodes code { quotation with status := "expired" } })
    else if quotation.status = "completed" then
      ((false, some "Código ya fue utilizado"), s)
    else
      ((true, none), s)

/-- The transaction identifier string `f"TXN-{timestamp}-{code[1:4]}"`. -/
def mkTxnId (now : ℚ) (code : String) : String :=
  "TXN-" ++ toString now ++ "-" ++ ((code.drop 1).take 3)

/-- `complete_transaction`: validates the code (raising the validation error
on failure), computes the final amounts — raising `ZeroDivisionError` when the
stored estimate is zero, as the percent division does in Python, before any
state is mutated — marks the quotation completed, links the transaction id
back onto it and appends the transaction to the history. -/
def complete_transaction (now : ℚ) (s : TxState) (code : String)
    (actual_kg : ℚ) (payment_method warehouse_id : String)
    (final_photo_url notes : Option String) :
    Except String Transaction × TxState :=
  match validate_code now s code with
  | ((false, error), s1) => (Except.error (error.getD "Código inválido"), s1)
  | ((true, _), s1) =>
    match lookupCode s1.activeCodes code with
    | none => (Except.error "KeyError", s1)
    | some quotation =>
      let price_per_kg := quotation.price_per_kg
      let total_amount := round2 (actual_kg * price_per_kg)
      let weight_difference := round2 (actual_kg - quotation.estimated_kg)
      if quotation.estimated_kg = 0 then
        (Except.error "ZeroDivisionError: float division by zero", s1)
      else
      let weight_difference_percent :=
        round2 (weight_difference / quotation.estimated_kg * 100)
      let txn : Transaction :=
        { transaction_id := mkTxnId now code
          code := code
          phone := quotation.phone
          material := quotation.material
          estimated_kg := quotation.estimated_kg
          actual_kg := actual_kg
          weight_difference_kg := weight_difference
          weight_difference_percent := weight_difference_percent
          price_per_kg := price_per_kg
          total_amount := total_amount
          payment_method := payment_method
          warehouse_id := warehouse_id
          initial_photo_url := quotation.photo_url
          final_photo_url := final_photo_url
          created_at := quotation.created_at
          completed_at := now
          notes := notes
          status := "completed" }
      (Except.ok txn,
        { s1 with
            activeCodes := updateCode s1.activeCodes code
              { quotation with
                  status := "completed"
                  transaction_id := some txn.transaction_id }
            transactions := s1.transactions ++ [txn] })

/-- First pass of `clean_expired_codes`: flips the status of every
pending-but-past-expiration entry to `"expired"`. -/
def markPass (now : ℚ) (l : List (String × Quotation)) :
    List (String × Quotation) :=
  l.map (fun p =>
    if p.2.expires_at < now ∧ p.2.status = "pending" then
      (p.1, { p.2 with status := "expired" })
    else p)

/-- The `codes_to_remove` list of `clean_expired_codes`: the keys of the
entries that this very call marks expired. -/
def codesToRemove (now : ℚ) (l : List (String × Quotation)) : List String :=
  (l.filter (fun p =>
    decide (p.2.expires_at < now) && (p.2.status == "pending"))).map Prod.fst

/-- Second pass of `clean_expired_codes`: deletes, among the entries listed in
`codes_to_remove`, those whose expiration precedes the retention cutoff. -/
def purgePass (cutoff : ℚ) (toRemove : List String)
    (l : List (String × Quotation)) : List (String × Quotation) :=
  l.filter (fun p => !(toRemove.contains p.1 && decide (p.2.expires_at < cutoff)))

/-- `clean_expired_codes`: marks pending-expired entries, then deletes the
just-marked entries that expired more than 7 days (`7*24` hours) ago; returns
the number of entries marked. -/
def clean_expired_codes (now : ℚ) (s : TxState) : ℕ × TxState :=
  let toRemove := codesToRemove now s.activeCodes
  let marked := markPass now s.activeCodes
  let cutoff := now - 7 * 24
  (toRemove.length, { s with activeCodes := purgePass cutoff toRemove marked })


/-! ## Warehouse system (src/warehouse_system.py) -/

/-- A warehouse record as stored in `self.warehouses`. -/
structure Warehouse where
  warehouse_id : String
  name : String
  address : String
  district : String
  latitude : ℚ
  longitude : ℚ
  capacity_kg : ℚ
  current_load_kg : ℚ
  opening_hour : String
  closing_hour : String
  phone : String
  active : Bool
  materials_accepted : List String
deriving DecidableEq, Repr

/-- An assignment record as built by `assign_warehouse`. -/
structure Assignment where
  assignment_id : String
  phone : String
  code : String
  warehouse_id : String
  warehouse_name : String
  warehouse_address : String
  warehouse_phone : String
  distance_km : ℚ
  material : String
  estimated_kg : ℚ
  user_latitude : ℚ
  user_longitude : ℚ
  assigned_at : ℚ
  status : String
  opening_hours : String
deriving DecidableEq, Repr

/-- The in-memory state of `WarehouseSystem`: `self.warehouses` and
`self.assignments`. -/
structure WState where
  warehouses : List Warehouse
  assignments : List Assignment
deriving DecidableEq, Repr

/-- The candidate-collection loop of `find_nearest_warehouses`: keeps, in
source order, the checks for the active flag, the accepted-material set, the
`> 0.90` utilization cutoff and the `<= max_distance_km` bound.  The haversine
`calculate_distance` is abstracted as the parameter `dist` (its trigonometry
has no bearing on the claims); each surviving warehouse is paired with its
computed distance, modelling the `distance_km`-annotated copy. -/
def warehouseCandidates (dist : ℚ → ℚ → ℚ → ℚ → ℚ) (ws : List Warehouse)
    (latitude longitude : ℚ) (material : String) (max_distance_km : ℚ) :
    List (Warehouse × ℚ) :=
  ws.filterMap (fun w =>
    if w.active = false then none
    else if material ∈ w.materials_accepted then
      if w.current_load_kg / w.capacity_kg > 0.90 then none
      else
        let d := dist latitude longitude w.latitude w.longitude
        if d ≤ max_distance_km then some (w, d) else none
    else none)

/-- Stable insertion of a candidate into a distance-sorted list: the inserted
candidate moves past an entry only when that entry's distance is strictly
smaller, so it lands before equal-distance entries, which originate later in
the input — equal distances keep their original relative order, as Python's
stable `sorted` does. -/
def insertByDistance (p : Warehouse × ℚ) :
    List (Warehouse × ℚ) → List (Warehouse × ℚ)
  | [] => [p]
  | q :: rest => if p.2 ≤ q.2 then p :: q :: rest else q :: insertByDistance p rest

/-- Stable ascending sort by the attached distance, modelling
`sorted(candidates, key=lambda x: x['distance_km'])`. -/
def sortByDistance : List (Warehouse × ℚ) → List (Warehouse × ℚ)
  | [] => []
  | p :: rest => insertByDistance p (sortByDistance rest)

/-- `find_nearest_warehouses`: filter, sort ascending by distance, truncate to
`limit`. -/
def find_nearest_warehouses (dist : ℚ → ℚ → ℚ → ℚ → ℚ) (ws : List Warehouse)
    (latitude longitude : ℚ) (material : String) (max_distance_km : ℚ)
    (limit : ℕ) : List (Warehouse × ℚ) :=
  (sortByDistance
    (warehouseCandidates dist ws latitude longitude material max_distance_km)).take
    limit

/-- `assign_warehouse`: nearest-search with the default bounds (5 km, 3
results); `None` on an empty result, otherwise an assignment built from the
first candidate and appended to the assignment history. -/
def assign_warehouse (dist : ℚ → ℚ → ℚ → ℚ → ℚ) (now : ℚ) (s : WState)
    (phone code : String) (latitude longitude : ℚ) (material : String)
    (estimated_kg : ℚ) : Option Assignment × WState :=
  match find_nearest_warehouses dist s.warehouses latitude longitude material 5 3 with
  | [] => (none, s)
  | assigned :: _ =>
    let a : Assignment :=
      { assignment_id := "ASG-" ++ toString now
        phone := phone
        code := code
        warehouse_id := assigned.1.warehouse_id
        warehouse_name := assigned.1.name
        warehouse_address := assigned.1.address
        warehouse_phone := assigned.1.phone
        distance_km := assigned.2
        material := material
        estimated_kg := estimated_kg
        user_latitude := latitude
        user_longitude := longitude
        assigned_at := now
        status := "assigned"
        opening_hours := assigned.1.opening_hour ++ " - " ++ assigned.1.closing_hour }
    (some a, { s with assignments := s.assignments ++ [a] })

/-- `update_warehouse_load`: adds `kg_change` to the first warehouse with the
given id, clamping the result below at 0, and leaves the rest untouched (the
Python loop breaks after the first match). -/
def update_warehouse_load : List Warehouse → String → ℚ → List Warehouse
  | [], _, _ => []
  | w :: rest, warehouse_id, kg_change =>
    if w.warehouse_id = warehouse_id then
      { w with current_load_kg := max 0 (w.current_load_kg + kg_change) } :: rest
    else
      w :: update_warehouse_load rest warehouse_id kg_change

/-! ## Lookup and update lemmas -/

theorem lookupCode_updateCode_self {l : List (String × Quotation)} {code : String}
    {q : Quotation} (q' : Quotation) (h : lookupCode l code = some q) :
    lookupCode (updateCode l code q') code = some q' := by
  induction l with
  | nil => simp [lookupCode] at h
  | cons p rest ih =>
    obtain ⟨c, qq⟩ := p
    by_cases hc : c = code
    · simp [lookupCode, updateCode, hc]
    · simp only [lookupCode, updateCode, if_neg hc] at h ⊢
      exact ih h

/-! ## Case lemmas for `validate_code` -/

theorem validate_code_not_found {now : ℚ} {s : TxState} {code : String}
    (h : lookupCode s.activeCodes code = none) :
    validate_code now s code = ((false, some "Código no existe"), s) := by
  simp [validate_code, h]

theorem validate_code_expired {now : ℚ} {s : TxState} {code : String}
    {q : Quotation} (hq : lookupCode s.activeCodes code = some q)
    (h : q.expires_at < now) :
    validate_code now s code =
      ((false, some "Código expirado (válido 24h)"),
        { s with activeCodes :=
            updateCode s.activeCodes code { q with status := "expired" } }) := by
  simp [validate_code, hq, h]

theorem validate_code_used {now : ℚ} {s : TxState} {code : String}
    {q : Quotation} (hq : lookupCode s.activeCodes code = some q)
    (h1 : ¬ q.expires_at < now) (h2 : q.status = "completed") :
    validate_code now s code = ((false, some "Código ya fue utilizado"), s) := by
  simp [validate_code, hq, h1, h2]

theorem validate_code_ok {now : ℚ} {s : TxState} {code : String}
    {q : Quotation} (hq : lookupCode s.activeCodes code = some q)
    (h1 : ¬ q.expires_at < now) (h2 : q.status ≠ "completed") :
    validate_code now s code = ((true, none), s) := by
  simp [validate_code, hq, h1, h2]

/-- The transaction record that `complete_transaction` builds on its success
path, with the `let`-bound intermediates substituted in. -/
def mkTransaction (now : ℚ) (code : String) (q : Quotation) (actual_kg : ℚ)
    (payment_method warehouse_id : String)
    (final_photo_url notes : Option String) : Transaction :=
  { transaction_id := mkTxnId now code
    code := code
    phone := q.phone
    material := q.material
    estimated_kg := q.estimated_kg
    actual_kg := actual_kg
    weight_difference_kg := round2 (actual_kg - q.estimated_kg)
    weight_difference_percent :=
      round2 (round2 (actual_kg - q.estimated_kg) / q.estimated_kg * 100)
    price_per_kg := q.price_per_kg
    total_amount := round2 (actual_kg * q.price_per_kg)
    payment_method := payment_method
    warehouse_id := warehouse_id
    initial_photo_url := q.photo_url
    final_photo_url := final_photo_url
    created_at := q.created_at
    completed_at := now
    notes := notes
    status := "completed" }

theorem complete_transaction_ok {now : ℚ} {s : TxState} {code : String}
    {q : Quotation} (actual_kg : ℚ) (payment_method warehouse_id : String)
    (final_photo_url notes : Option String)
    (hq : lookupCode s.activeCodes code = some q)
    (h1 : ¬ q.expires_at < now) (h2 : q.status ≠ "completed")
    (hkg : q.estimated_kg ≠ 0) :
    complete_transaction now s code actual_kg payment_method warehouse_id
        final_photo_url notes =
      (Except.ok (mkTransaction now code q actual_kg payment_method warehouse_id
          final_photo_url notes),
        { activeCodes := updateCode s.activeCodes code
            { q with status := "completed"
                     transaction_id := some (mkTxnId now code) }
          transactions := s.transactions ++
            [mkTransaction now code q actual_kg payment_method warehouse_id
              final_photo_url notes] }) := by
  rw [complete_transaction, validate_code_ok hq h1 h2]
  simp [hq, hkg, mkTransaction]


/-! ## Concrete fixtures for witnesses and counterexamples -/

/-- A freshly created quotation: material PET, 8 kg estimated at 2.20 soles/kg,
created at time 0, valid for 24 hours. -/
def q0 : Quotation :=
  { code := "#AB1234"
    phone := "+51900000001"
    material := "PET"
    estimated_kg := 8
    price_per_kg := 22/10
    total_estimated := round2 (8 * (22/10))
    created_at := 0
    expires_at := 24
    status := "pending"
    photo_url := none
    verified := false
    transaction_id := none }

/-- A transaction-system state holding just `q0`. -/
def s0 : TxState := { activeCodes := [("#AB1234", q0)], transactions := [] }

/-- `q0` already consumed: status `"completed"`. -/
def q0completed : Quotation := { q0 with status := "completed" }

/-- A state holding the consumed quotation. -/
def s0completed : TxState :=
  { activeCodes := [("#AB1234", q0completed)], transactions := [] }

/-! ## C4 -/

/-- C4: a quotation validated strictly before its `expires_at` (status not
"completed") succeeds with the state untouched; validated after `expires_at`
it fails with the "expired" reason and the stored status becomes "expired";
and once it has failed as expired, validating again at any later time (the
clock being non-decreasing) fails again with the "expired" reason. -/
theorem c4_expiration_monotonicity (s : TxState) (code : String) (q : Quotation)
    (hq : lookupCode s.activeCodes code = some q) :
    (∀ now, now < q.expires_at → q.status ≠ "completed" →
      validate_code now s code = ((true, none), s)) ∧
    (∀ now, q.expires_at < now →
      (validate_code now s code).1 = (false, some "Código expirado (válido 24h)") ∧
      lookupCode ((validate_code now s code).2).activeCodes code
        = some { q with status := "expired" }) ∧
    (∀ t t', q.expires_at < t → t ≤ t' →
      (validate_code t' ((validate_code t s code).2) code).1
        = (false, some "Código expirado (válido 24h)")) := by
  refine ⟨?_, ?_, ?_⟩
  · intro now hlt hst
    exact validate_code_ok hq (lt_asymm hlt) hst
  · intro now hgt
    rw [validate_code_expired hq hgt]
    exact ⟨rfl, lookupCode_updateCode_self _ hq⟩
  · intro t t' ht htt
    rw [validate_code_expired hq ht]
    have hq' : lookupCode
        (updateCode s.activeCodes code { q with status := "expired" }) code
        = some { q with status := "expired" } :=
      lookupCode_updateCode_self _ hq
    have ht' : ({ q with status := "expired" } : Quotation).expires_at < t' :=
      lt_of_lt_of_le ht htt
    rw [validate_code_expired hq' ht']

/-- Witness for C4 at `q0`: validating at time 1 (before expiry 24) succeeds;
validating at time 25 fails as expired and flips the stored status; a second
validation at time 30 fails again. -/
theorem c4_expiration_monotonicity_witness :
    validate_code 1 s0 "#AB1234" = ((true, none), s0) ∧
    (validate_code 25 s0 "#AB1234").1 = (false, some "Código expirado (válido 24h)") ∧
    (validate_code 30 ((validate_code 25 s0 "#AB1234").2) "#AB1234").1
      = (false, some "Código expirado (válido 24h)") :=
  ⟨(c4_expiration_monotonicity s0 "#AB1234" q0 rfl).1 1 (by decide) (by decide),
   ((c4_expiration_monotonicity s0 "#AB1234" q0 rfl).2.1 25 (by decide)).1,
   (c4_expiration_monotonicity s0 "#AB1234" q0 rfl).2.2 25 30 (by decide) (by decide)⟩

/-! ## C9 -/

/-- C9: on a quotation whose status is "completed", a validation after
`expires_at` fails with the "expired" reason (not "already used") and
overwrites the stored status from "completed" to "expired": the expiration
check precedes the completed-status check and rewrites the status
unconditionally. -/
theorem c9_expired_overwrites_completed (now : ℚ) (s : TxState) (code : String)
    (q : Quotation) (hq : lookupCode s.activeCodes code = some q)
    (_hst : q.status = "completed") (he : q.expires_at < now) :
    (validate_code now s code).1 = (false, some "Código expirado (válido 24h)") ∧
    lookupCode ((validate_code now s code).2).activeCodes code
      = some { q with status := "expired" } := by
  rw [validate_code_expired hq he]
  exact ⟨rfl, lookupCode_updateCode_self _ hq⟩

/-- Witness for C9: the completed quotation `q0completed`, validated at time
25 (past expiry 24), reports "expired" and its stored status becomes
"expired". -/
theorem c9_expired_overwrites_completed_witness :
    (validate_code 25 s0completed "#AB1234").1
      = (false, some "Código expirado (válido 24h)") ∧
    lookupCode ((validate_code 25 s0completed "#AB1234").2).activeCodes "#AB1234"
      = some { q0completed with status := "expired" } :=
  c9_expired_overwrites_completed 25 s0completed "#AB1234" q0completed
    rfl rfl (by decide)

/-! ## C1 -/

/-- C1: on a quotation whose expiration has not passed at either call (status
not yet "completed", nonzero estimate as the Python division requires),
`complete_transaction` succeeds the first time with a completed transaction
record, and the second call with the same code fails with the "already used"
message, because the first call set the stored status to "completed". -/
theorem c1_single_consumption (now1 now2 : ℚ) (s : TxState) (code : String)
    (q : Quotation) (hq : lookupCode s.activeCodes code = some q)
    (hst : q.status ≠ "completed") (hkg : q.estimated_kg ≠ 0)
    (h1 : ¬ q.expires_at < now1) (h2 : ¬ q.expires_at < now2)
    (kg1 kg2 : ℚ) (pm1 pm2 wid1 wid2 : String) (fp1 fp2 nt1 nt2 : Option String) :
    ∃ txn s1,
      complete_transaction now1 s code kg1 pm1 wid1 fp1 nt1 = (Except.ok txn, s1) ∧
      txn.status = "completed" ∧
      complete_transaction now2 s1 code kg2 pm2 wid2 fp2 nt2
        = (Except.error "Código ya fue utilizado", s1) := by
  rw [complete_transaction_ok kg1 pm1 wid1 fp1 nt1 hq h1 hst hkg]
  refine ⟨_, _, rfl, rfl, ?_⟩
  rw [complete_transaction,
    validate_code_used
      (q := { q with status := "completed",
                     transaction_id := some (mkTxnId now1 code) })
      (lookupCode_updateCode_self _ hq) h2 rfl]
  rfl

/-- Witness for C1 at `q0`: both calls at times 1 and 2 (before expiry 24). -/
theorem c1_single_consumption_witness :
    ∃ txn s1,
      complete_transaction 1 s0 "#AB1234" 10 "cash" "WH001" none none
        = (Except.ok txn, s1) ∧
      txn.status = "completed" ∧
      complete_transaction 2 s1 "#AB1234" 10 "cash" "WH001" none none
        = (Except.error "Código ya fue utilizado", s1) :=
  c1_single_consumption 1 2 s0 "#AB1234" q0 rfl (by decide) (by decide)
    (by decide) (by decide)
    10 10 "cash" "cash" "WH001" "WH001" none none none none

/-! ## C5 -/

/-- C5: on every successful completion the record's `total_amount`,
`weight_difference_kg` and `weight_difference_percent` are the rounded
products and quotients of the claim's formulas; in particular completing the
8 kg / 2.20-per-kg quotation `q0` with 10 actual kg yields total 22.00,
difference 2.0 and 25.0 percent. -/
theorem c5_deterministic_totals :
    (∀ (now : ℚ) (s : TxState) (code : String) (q : Quotation) (actual_kg : ℚ)
        (pm wid : String) (fp nt : Option String) (txn : Transaction)
        (s' : TxState),
      lookupCode s.activeCodes code = some q →
      complete_transaction now s code actual_kg pm wid fp nt
        = (Except.ok txn, s') →
      txn.total_amount = round2 (actual_kg * q.price_per_kg) ∧
      txn.weight_difference_kg = round2 (actual_kg - q.estimated_kg) ∧
      txn.weight_difference_percent
        = round2 (round2 (actual_kg - q.estimated_kg) / q.estimated_kg * 100)) ∧
    (∃ txn s',
      complete_transaction 1 s0 "#AB1234" 10 "cash" "WH001" none none
        = (Except.ok txn, s') ∧
      txn.total_amount = 22 ∧ txn.weight_difference_kg = 2 ∧
      txn.weight_difference_percent = 25) := by
  constructor
  · intro now s code q actual_kg pm wid fp nt txn s' hq hok
    by_cases hexp : q.expires_at < now
    · rw [complete_transaction, validate_code_expired hq hexp] at hok
      simp at hok
    · by_cases hst : q.status = "completed"
      · rw [complete_transaction, validate_code_used hq hexp hst] at hok
        simp at hok
      · by_cases hkg : q.estimated_kg = 0
        · rw [complete_transaction, validate_code_ok hq hexp hst] at hok
          simp [hq, hkg] at hok
        · rw [complete_transaction_ok actual_kg pm wid fp nt hq hexp hst hkg]
            at hok
          have htxn : mkTransaction now code q actual_kg pm wid fp nt = txn := by
            have h1 := congrArg Prod.fst hok
            simpa using h1
          subst htxn
          exact ⟨rfl, rfl, rfl⟩
  · refine ⟨_, _, complete_transaction_ok 10 "cash" "WH001" none none
      (q := q0) rfl (by decide) (by decide) (by decide),
      by decide, by decide, by decide⟩

/-- Witness for C5: the general clause applied to the concrete completion of
`q0` with 10 actual kg. -/
theorem c5_deterministic_totals_witness :
    ∃ txn s',
      complete_transaction 1 s0 "#AB1234" 10 "cash" "WH001" none none
        = (Except.ok txn, s') ∧
      txn.total_amount = round2 (10 * q0.price_per_kg) :=
  ⟨_, _, complete_transaction_ok 10 "cash" "WH001" none none (q := q0) rfl
      (by decide) (by decide) (by decide),
    (c5_deterministic_totals.1 1 s0 "#AB1234" q0 10 "cash" "WH001" none none _ _
      rfl (complete_transaction_ok 10 "cash" "WH001" none none (q := q0) rfl
        (by decide) (by decide) (by decide))).1⟩

/-! ## C10 -/

/-- C10: whenever `complete_transaction` fails, the transaction history is
unchanged, and the state is either exactly the input state or the input state
with the quotation's status lazily flipped to "expired" — in particular no
status is set to "completed" and no transaction id is attached on a failure
path. -/
theorem c10_failure_frame (now : ℚ) (s : TxState) (code : String)
    (actual_kg : ℚ) (pm wid : String) (fp nt : Option String)
    (e : String) (s' : TxState)
    (h : complete_transaction now s code actual_kg pm wid fp nt
      = (Except.error e, s')) :
    s'.transactions = s.transactions ∧
    (s' = s ∨ ∃ q, lookupCode s.activeCodes code = some q ∧
      q.expires_at < now ∧
      s' = { s with
               activeCodes := updateCode s.activeCodes code
                 { q with status := "expired" } }) := by
  rcases hl : lookupCode s.activeCodes code with - | q
  · rw [complete_transaction, validate_code_not_found hl] at h
    obtain ⟨-, rfl⟩ := Prod.mk.injEq .. ▸ h
    exact ⟨rfl, Or.inl rfl⟩
  · by_cases hexp : q.expires_at < now
    · rw [complete_transaction, validate_code_expired hl hexp] at h
      obtain ⟨-, rfl⟩ := Prod.mk.injEq .. ▸ h
      exact ⟨rfl, Or.inr ⟨q, rfl, hexp, rfl⟩⟩
    · by_cases hst : q.status = "completed"
      · rw [complete_transaction, validate_code_used hl hexp hst] at h
        obtain ⟨-, rfl⟩ := Prod.mk.injEq .. ▸ h
        exact ⟨rfl, Or.inl rfl⟩
      · by_cases hkg : q.estimated_kg = 0
        · rw [complete_transaction, validate_code_ok hl hexp hst] at h
          simp only [hl, hkg, ite_true, if_pos] at h
          obtain ⟨-, rfl⟩ := Prod.mk.injEq .. ▸ h
          exact ⟨rfl, Or.inl rfl⟩
        · rw [complete_transaction_ok actual_kg pm wid fp nt hl hexp hst hkg]
            at h
          simp at h

/-- Witness for C10: completing the already-consumed quotation `q0completed`
at time 1 fails with "already used" and leaves the state untouched. -/
theorem c10_failure_frame_witness :
    (s0completed.transactions = s0completed.transactions ∧
      (s0completed = s0completed ∨ ∃ q,
        lookupCode s0completed.activeCodes "#AB1234" = some q ∧
        q.expires_at < 1 ∧
        s0completed = { s0completed with
                          activeCodes := updateCode s0completed.activeCodes
                            "#AB1234" { q with status := "expired" } })) :=
  c10_failure_frame 1 s0completed "#AB1234" 10 "cash" "WH001" none none
    "Código ya fue utilizado" s0completed rfl

/-! ## C3 -/

theorem purgePass_markPass_eq (now cutoff : ℚ) (toRemove : List String)
    (l : List (String × Quotation))
    (h : ∀ p ∈ l, toRemove.contains p.1
      = (decide (p.2.expires_at < now) && (p.2.status == "pending"))) :
    purgePass cutoff toRemove (markPass now l)
      = l.filterMap (fun p =>
          if p.2.expires_at < now ∧ p.2.status = "pending" then
            if p.2.expires_at < cutoff then none
            else some (p.1, { p.2 with status := "expired" })
          else some p) := by
  induction l with
  | nil => rfl
  | cons p rest ih =>
    have hp := h p (List.mem_cons_self p rest)
    have hrest := ih fun p' hp' => h p' (List.mem_cons_of_mem p hp')
    by_cases hc : p.2.expires_at < now ∧ p.2.status = "pending"
    · have hmem : p.1 ∈ toRemove := by
        have : toRemove.contains p.1 = true := by
          rw [hp]
          simp [hc.1, hc.2]
        simpa using this
      by_cases hcut : p.2.expires_at < cutoff
      · simp [markPass, purgePass, List.filter_cons, hmem, hc, hcut, ← hrest]
      · simp [markPass, purgePass, List.filter_cons, hmem, hc, hcut, ← hrest]
    · have hmem : p.1 ∉ toRemove := by
        have : toRemove.contains p.1 = false := by
          rw [hp]
          rw [not_and_or] at hc
          rcases hc with hc | hc <;> simp [hc]
        simpa using this
      simp [markPass, purgePass, List.filter_cons, hmem, hc, ← hrest]

theorem contains_codesToRemove (now : ℚ) (l : List (String × Quotation))
    (hnodup : (l.map Prod.fst).Nodup) :
    ∀ p ∈ l, (codesToRemove now l).contains p.1
      = (decide (p.2.expires_at < now) && (p.2.status == "pending")) := by
  intro p hp
  rcases hb : (decide (p.2.expires_at < now) && (p.2.status == "pending")) with - | -
  · rw [List.contains_eq_any_beq]
    rw [List.any_eq_false]
    intro c hc
    rcases List.mem_map.mp hc with ⟨p', hp'mem, rfl⟩
    rcases List.mem_filter.mp hp'mem with ⟨hp'l, hp'cond⟩
    intro hbeq
    have hpp : p' = p := List.inj_on_of_nodup_map hnodup hp'l hp
      (eq_of_beq hbeq).symm
    rw [hpp] at hp'cond
    rw [hb] at hp'cond
    exact Bool.false_ne_true hp'cond
  · have hmem : p.1 ∈ codesToRemove now l :=
      List.mem_map.mpr ⟨p, List.mem_filter.mpr ⟨hp, hb⟩, rfl⟩
    simpa using hmem

/-- A pending quotation that expired at time 0 (created 24 hours earlier). -/
def qExp : Quotation :=
  { code := "#EXP001"
    phone := "+51900000002"
    material := "PET"
    estimated_kg := 5
    price_per_kg := 2
    total_estimated := round2 (5 * 2)
    created_at := -24
    expires_at := 0
    status := "pending"
    photo_url := none
    verified := false
    transaction_id := none }

/-- A state holding just the long-expired pending quotation `qExp`. -/
def sExp : TxState := { activeCodes := [("#EXP001", qExp)], transactions := [] }

/-- Counterexample to C3: a first `clean_expired_codes` at time 1 marks
`qExp` expired (its expiration, 0, is within the 7-day retention window, so
it is kept); a later call at time 1000 finds the expiration far older than
the retention cutoff `1000 - 7*24`, yet does NOT delete the entry — the purge
pass only considers codes marked in the same call, and the entry's status is
no longer "pending". The claim says the later call still deletes it. -/
theorem c3_counterexample :
    lookupCode ((clean_expired_codes 1 sExp).2).activeCodes "#EXP001"
        = some { qExp with status := "expired" } ∧
    qExp.expires_at < 1000 - 7 * 24 ∧
    lookupCode ((clean_expired_codes 1000 (clean_expired_codes 1 sExp).2).2).activeCodes
        "#EXP001" = some { qExp with status := "expired" } := by
  refine ⟨by decide, by decide, by decide⟩

/-- C3 (amended): under distinct keys, `clean_expired_codes` rewrites the
store as a single sweep: a pending entry past expiration is marked "expired",
and is deleted in that same call exactly when its expiration also lies more
than 7 days before `now`; every other entry — in particular one already
marked "expired" by an earlier call — is kept untouched, so a previously
marked entry is never purged later; the returned count is the number of
pending-and-past-expiration entries. -/
theorem c3_clean_expired_codes_behavior (now : ℚ) (s : TxState)
    (hnodup : (s.activeCodes.map Prod.fst).Nodup) :
    ((clean_expired_codes now s).2).activeCodes
      = s.activeCodes.filterMap (fun p =>
          if p.2.expires_at < now ∧ p.2.status = "pending" then
            if p.2.expires_at < now - 7 * 24 then none
            else some (p.1, { p.2 with status := "expired" })
          else some p) ∧
    (∀ p ∈ s.activeCodes, p.2.status ≠ "pending" →
      p ∈ ((clean_expired_codes now s).2).activeCodes) ∧
    (clean_expired_codes now s).1
      = (s.activeCodes.filter (fun p =>
          decide (p.2.expires_at < now) && (p.2.status == "pending"))).length := by
  have hmain : ((clean_expired_codes now s).2).activeCodes
      = s.activeCodes.filterMap (fun p =>
          if p.2.expires_at < now ∧ p.2.status = "pending" then
            if p.2.expires_at < now - 7 * 24 then none
            else some (p.1, { p.2 with status := "expired" })
          else some p) :=
    purgePass_markPass_eq now (now - 7 * 24) _ s.activeCodes
      (contains_codesToRemove now s.activeCodes hnodup)
  refine ⟨hmain, ?_, ?_⟩
  · intro p hp hstat
    rw [hmain]
    refine List.mem_filterMap.mpr ⟨p, hp, ?_⟩
    have : ¬ (p.2.expires_at < now ∧ p.2.status = "pending") := by
      rintro ⟨-, h⟩
      exact hstat h
    simp [this]
  · show (codesToRemove now s.activeCodes).length = _
    rw [codesToRemove, List.length_map]

/-- Witness for C3 (amended) on the singleton state `sExp` at time 1: the
entry is marked expired and kept, no non-pending entry existed, and the call
reports one marked code. -/
theorem c3_clean_expired_codes_behavior_witness :
    ((clean_expired_codes 1 sExp).2).activeCodes
      = sExp.activeCodes.filterMap (fun p =>
          if p.2.expires_at < 1 ∧ p.2.status = "pending" then
            if p.2.expires_at < 1 - 7 * 24 then none
            else some (p.1, { p.2 with status := "expired" })
          else some p) ∧
    (∀ p ∈ sExp.activeCodes, p.2.status ≠ "pending" →
      p ∈ ((clean_expired_codes 1 sExp).2).activeCodes) ∧
    (clean_expired_codes 1 sExp).1
      = (sExp.activeCodes.filter (fun p =>
          decide (p.2.expires_at < 1) && (p.2.status == "pending"))).length :=
  c3_clean_expired_codes_behavior 1 sExp (by decide)

/-! ## C6 -/

/-- The keys (codes) of the active-code store. -/
def keysOf (l : List (String × Quotation)) : List String := l.map Prod.fst

theorem lookupCode_eq_none_iff (l : List (String × Quotation)) (c : String) :
    lookupCode l c = none ↔ c ∉ keysOf l := by
  induction l with
  | nil => simp [lookupCode, keysOf]
  | cons p rest ih =>
    obtain ⟨c', q⟩ := p
    by_cases hc : c' = c
    · subst hc
      simp [lookupCode, keysOf]
    · simp [lookupCode, keysOf, hc, Ne.symm hc] at ih ⊢
      exact ih

theorem generate_unique_code_fresh {draws : List String}
    {active : List (String × Quotation)} {c : String}
    (h : generate_unique_code draws active = some c) :
    lookupCode active c = none := by
  have hp := List.find?_some h
  simpa using hp

theorem create_quotation_state {draws : List String} {now : ℚ} {s : TxState}
    {phone material : String} {estimated_kg price_per_kg valid_hours : ℚ}
    {q : Quotation} {s' : TxState}
    (h : create_quotation draws now s phone material estimated_kg price_per_kg
      valid_hours = some (q, s')) :
    lookupCode s.activeCodes q.code = none ∧
    keysOf s'.activeCodes = keysOf s.activeCodes ++ [q.code] := by
  rw [create_quotation] at h
  rcases hg : generate_unique_code draws s.activeCodes with - | code
  · rw [hg] at h
    exact absurd h (by simp)
  · rw [hg] at h
    obtain ⟨hq, hs⟩ := Prod.mk.injEq .. ▸ Option.some.injEq .. ▸ h
    have hcode : q.code = code := by rw [← hq]
    constructor
    · rw [hcode]
      exact generate_unique_code_fresh hg
    · rw [← hs, hcode]
      simp [keysOf]

/-- One request of a sequence of `create_quotation` calls: its random draws,
its clock reading and the quotation parameters. -/
structure CreateReq where
  draws : List String
  now : ℚ
  phone : String
  material : String
  estimated_kg : ℚ
  price_per_kg : ℚ
  valid_hours : ℚ

/-- Runs a sequence of `create_quotation` calls, collecting the codes of the
quotations actually issued (a call whose draws are exhausted — the Python
rejection loop spinning forever — issues nothing). -/
def runCreates : List CreateReq → TxState → List String × TxState
  | [], s => ([], s)
  | r :: rest, s =>
    match create_quotation r.draws r.now s r.phone r.material r.estimated_kg
        r.price_per_kg r.valid_hours with
    | none => runCreates rest s
    | some (q, s') =>
      (q.code :: (runCreates rest s').1, (runCreates rest s').2)

theorem runCreates_avoids_existing (reqs : List CreateReq) :
    ∀ (s : TxState) (c : String), c ∈ keysOf s.activeCodes →
      c ∉ (runCreates reqs s).1 := by
  induction reqs with
  | nil => intro s c _; simp [runCreates]
  | cons r rest ih =>
    intro s c hc
    rw [runCreates]
    rcases hcr : create_quotation r.draws r.now s r.phone r.material
        r.estimated_kg r.price_per_kg r.valid_hours with - | qs'
    · exact ih s c hc
    · obtain ⟨q, s'⟩ := qs'
      obtain ⟨hfresh, hkeys⟩ := create_quotation_state hcr
      have hne : c ≠ q.code := by
        rintro rfl
        exact absurd hc ((lookupCode_eq_none_iff _ _).mp hfresh)
      have hmem' : c ∈ keysOf s'.activeCodes := by
        rw [hkeys]
        exact List.mem_append_left _ hc
      simp only [List.mem_cons, not_or]
      exact ⟨hne, ih s' c hmem'⟩

/-- C6: the codes issued by any sequence of `create_quotation` calls are
pairwise distinct, and `generate_unique_code` never returns a code already
present among the keys of the active-code store (uniqueness at issuance). -/
theorem c6_uniqueness (reqs : List CreateReq) (s : TxState) :
    ((runCreates reqs s).1).Pairwise (· ≠ ·) ∧
    (∀ (draws : List String) (active : List (String × Quotation)) (c : String),
      generate_unique_code draws active = some c → lookupCode active c = none) := by
  constructor
  · induction reqs generalizing s with
    | nil => simp [runCreates]
    | cons r rest ih =>
      rw [runCreates]
      rcases hcr : create_quotation r.draws r.now s r.phone r.material
          r.estimated_kg r.price_per_kg r.valid_hours with - | qs'
      · exact ih s
      · obtain ⟨q, s'⟩ := qs'
        obtain ⟨-, hkeys⟩ := create_quotation_state hcr
        refine List.Pairwise.cons ?_ (ih s')
        have hqmem : q.code ∈ keysOf s'.activeCodes := by
          rw [hkeys]
          exact List.mem_append_right _ (List.mem_singleton.mpr rfl)
        intro c hc heq
        rw [← heq] at hc
        exact (runCreates_avoids_existing rest s' q.code hqmem) hc
  · intro draws active c h
    exact generate_unique_code_fresh h

/-- The empty transaction-system state. -/
def txEmpty : TxState := { activeCodes := [], transactions := [] }

/-- A concrete creation request drawing the candidate `"AAAAAA"`. -/
def req1 : CreateReq :=
  { draws := ["AAAAAA"]
    now := 0
    phone := "+51900000001"
    material := "PET"
    estimated_kg := 8
    price_per_kg := 22/10
    valid_hours := 24 }

/-- Witness for C6: two sequential requests over the empty store issue
pairwise-distinct codes, and the generator refuses a taken key on the empty
store example. -/
theorem c6_uniqueness_witness :
    ((runCreates [req1, req1] txEmpty).1).Pairwise (· ≠ ·) ∧
    lookupCode [] "#AAAAAA" = none :=
  ⟨(c6_uniqueness [req1, req1] txEmpty).1,
   (c6_uniqueness [req1, req1] txEmpty).2 ["AAAAAA"] [] "#AAAAAA" (by decide)⟩

/-! ## C8 -/

/-- A warehouse with a 5000 kg capacity and a 100 kg load. -/
def wh100 : Warehouse :=
  { warehouse_id := "WH100"
    name := "Bodega Cien"
    address := "Av. Prueba 100"
    district := "Lima"
    latitude := -12
    longitude := -77
    capacity_kg := 5000
    current_load_kg := 100
    opening_hour := "06:00"
    closing_hour := "20:00"
    phone := "+51987650100"
    active := true
    materials_accepted := ["PET"] }

/-- A small warehouse: capacity 100 kg, load 50 kg. -/
def whSmall : Warehouse :=
  { wh100 with warehouse_id := "WH101", name := "Bodega Chica",
               capacity_kg := 100, current_load_kg := 50 }

/-- C8: `update_warehouse_load` never produces a negative load — every
warehouse in the result is either untouched or carries the clamped load
`max 0 (old + kg_change)`, which is nonnegative; on the concrete warehouse
with load 100 an update of -1,000,000 yields load 0; and there is no upper
clamp: the 100-capacity warehouse updated by +1000 ends at 1050 kg, above its
capacity. -/
theorem c8_load_update_floor :
    (∀ (ws : List Warehouse) (wid : String) (kg : ℚ) (w' : Warehouse),
      w' ∈ update_warehouse_load ws wid kg →
      w' ∈ ws ∨ 0 ≤ w'.current_load_kg) ∧
    update_warehouse_load [wh100] "WH100" (-1000000)
      = [{ wh100 with current_load_kg := 0 }] ∧
    (update_warehouse_load [whSmall] "WH101" 1000
        = [{ whSmall with current_load_kg := 1050 }] ∧
      whSmall.capacity_kg < 1050) := by
  refine ⟨?_, by decide, by decide, by decide⟩
  intro ws wid kg w' hw'
  induction ws with
  | nil => simp [update_warehouse_load] at hw'
  | cons w rest ih =>
    rw [update_warehouse_load] at hw'
    by_cases hid : w.warehouse_id = wid
    · rw [if_pos hid] at hw'
      rcases List.mem_cons.mp hw' with heq | hmem
      · right
        rw [heq]
        exact le_max_left 0 _
      · exact Or.inl (List.mem_cons_of_mem w hmem)
    · rw [if_neg hid] at hw'
      rcases List.mem_cons.mp hw' with heq | hmem
      · exact Or.inl (heq ▸ List.mem_cons_self w rest)
      · rcases ih hmem with hin | hnn
        · exact Or.inl (List.mem_cons_of_mem w hin)
        · exact Or.inr hnn

/-- Witness for C8's universal clause: the clamped warehouse produced by the
concrete -1,000,000 update is accounted for (here through the nonnegative
branch). -/
theorem c8_load_update_floor_witness :
    { wh100 with current_load_kg := 0 } ∈ [wh100] ∨
    (0:ℚ) ≤ ({ wh100 with current_load_kg := 0 } : Warehouse).current_load_kg :=
  c8_load_update_floor.1 [wh100] "WH100" (-1000000)
    { wh100 with current_load_kg := 0 } (by decide)

/-! ## C2 -/

theorem mem_insertByDistance (p q : Warehouse × ℚ) (l : List (Warehouse × ℚ)) :
    q ∈ insertByDistance p l ↔ q = p ∨ q ∈ l := by
  induction l with
  | nil => simp [insertByDistance]
  | cons r rest ih =>
    rw [insertByDistance]
    by_cases hlt : p.2 ≤ r.2
    · simp [hlt]
    · simp only [if_neg hlt, List.mem_cons, ih]
      tauto

theorem mem_sortByDistance (p : Warehouse × ℚ) (l : List (Warehouse × ℚ)) :
    p ∈ sortByDistance l ↔ p ∈ l := by
  induction l with
  | nil => simp [sortByDistance]
  | cons r rest ih =>
    rw [sortByDistance, mem_insertByDistance]
    simp [ih]

theorem length_insertByDistance (p : Warehouse × ℚ) (l : List (Warehouse × ℚ)) :
    (insertByDistance p l).length = l.length + 1 := by
  induction l with
  | nil => rfl
  | cons r rest ih =>
    rw [insertByDistance]
    by_cases hlt : p.2 ≤ r.2
    · simp [hlt]
    · simp [hlt, ih]

theorem length_sortByDistance (l : List (Warehouse × ℚ)) :
    (sortByDistance l).length = l.length := by
  induction l with
  | nil => rfl
  | cons r rest ih => rw [sortByDistance, length_insertByDistance, ih]; rfl

theorem utilization_le_of_mem_warehouseCandidates
    {dist : ℚ → ℚ → ℚ → ℚ → ℚ} {ws : List Warehouse} {latitude longitude : ℚ}
    {material : String} {max_distance_km : ℚ} {p : Warehouse × ℚ}
    (h : p ∈ warehouseCandidates dist ws latitude longitude material
      max_distance_km) :
    ¬ p.1.current_load_kg / p.1.capacity_kg > 0.90 := by
  obtain ⟨w, hw, hf⟩ := List.mem_filterMap.mp h
  by_cases h1 : w.active = false
  · simp [warehouseCandidates, h1] at hf
  · by_cases h2 : material ∈ w.materials_accepted
    · by_cases h3 : w.current_load_kg / w.capacity_kg > 0.90
      · simp [h1, h2, h3] at hf
      · by_cases h4 : dist latitude longitude w.latitude w.longitude
            ≤ max_distance_km
        · simp only [h1, h2, h3, h4, if_false, if_true, if_pos, if_neg,
            not_false_eq_true, ite_true, ite_false] at hf
          simp [h4] at hf
          rw [← hf]
          exact h3
        · simp [h1, h2, h3, h4] at hf
    · simp [h1, h2] at hf

theorem mem_warehouseCandidates_of {dist : ℚ → ℚ → ℚ → ℚ → ℚ}
    {ws : List Warehouse} {latitude longitude : ℚ} {material : String}
    {max_distance_km : ℚ} {w : Warehouse} (hw : w ∈ ws)
    (hact : w.active = true) (hmat : material ∈ w.materials_accepted)
    (hutil : ¬ w.current_load_kg / w.capacity_kg > 0.90)
    (hd : dist latitude longitude w.latitude w.longitude ≤ max_distance_km) :
    (w, dist latitude longitude w.latitude w.longitude)
      ∈ warehouseCandidates dist ws latitude longitude material
          max_distance_km :=
  List.mem_filterMap.mpr ⟨w, hw, by simp [hact, hmat, hutil, hd]⟩

/-- A warehouse at exactly 90% utilization: 900 kg of a 1000 kg capacity. -/
def wh90 : Warehouse :=
  { warehouse_id := "WH090"
    name := "Bodega Noventa"
    address := "Av. Prueba 90"
    district := "Lima"
    latitude := -12
    longitude := -77
    capacity_kg := 1000
    current_load_kg := 900
    opening_hour := "06:00"
    closing_hour := "20:00"
    phone := "+51987650090"
    active := true
    materials_accepted := ["PET"] }

/-- A warehouse at 89.9% utilization: 899 kg of a 1000 kg capacity. -/
def wh899 : Warehouse :=
  { wh90 with warehouse_id := "WH089", name := "Bodega Ochenta y Nueve",
              current_load_kg := 899 }

/-- A distance oracle that reports 1 km between any two points. -/
def dist1 : ℚ → ℚ → ℚ → ℚ → ℚ := fun _ _ _ _ => 1

/-- Counterexample to C2: `wh90` sits at exactly 90% utilization
(900/1000 = 0.90), accepts "PET", is active and lies 1 km away, yet
`find_nearest_warehouses` RETURNS it — the source filter drops a warehouse
only when utilization strictly exceeds 0.90, while the claim says exactly
90% is excluded. -/
theorem c2_counterexample :
    wh90.current_load_kg / wh90.capacity_kg = 0.90 ∧
    find_nearest_warehouses dist1 [wh90] 0 0 "PET" 5 3 = [(wh90, 1)] := by
  refine ⟨by decide, by decide⟩

/-- C2 (amended): every warehouse returned by `find_nearest_warehouses` has
utilization at most 0.90 (one strictly above 90% is excluded; exactly 90%
passes), and an active, material-matching warehouse within range whose
utilization is at most 0.90 — in particular one at 89.9% — enters the
candidate set, and is in the returned list whenever the candidates fit within
`limit`. -/
theorem c2_warehouse_filtering (dist : ℚ → ℚ → ℚ → ℚ → ℚ)
    (ws : List Warehouse) (latitude longitude : ℚ) (material : String)
    (max_distance_km : ℚ) (limit : ℕ) :
    (∀ p ∈ find_nearest_warehouses dist ws latitude longitude material
        max_distance_km limit,
      ¬ p.1.current_load_kg / p.1.capacity_kg > 0.90) ∧
    (∀ w ∈ ws, w.active = true → material ∈ w.materials_accepted →
      ¬ w.current_load_kg / w.capacity_kg > 0.90 →
      dist latitude longitude w.latitude w.longitude ≤ max_distance_km →
      (w, dist latitude longitude w.latitude w.longitude)
        ∈ warehouseCandidates dist ws latitude longitude material
            max_distance_km ∧
      ((warehouseCandidates dist ws latitude longitude material
          max_distance_km).length ≤ limit →
        (w, dist latitude longitude w.latitude w.longitude)
          ∈ find_nearest_warehouses dist ws latitude longitude material
              max_distance_km limit)) := by
  constructor
  · intro p hp
    have hmem : p ∈ sortByDistance (warehouseCandidates dist ws latitude
        longitude material max_distance_km) :=
      (List.take_sublist _ _).subset hp
    exact utilization_le_of_mem_warehouseCandidates
      ((mem_sortByDistance _ _).mp hmem)
  · intro w hw hact hmat hutil hd
    have hcand := mem_warehouseCandidates_of hw hact hmat hutil hd
    refine ⟨hcand, fun hlen => ?_⟩
    rw [find_nearest_warehouses, List.take_of_length_le
      (by rw [length_sortByDistance]; exact hlen)]
    exact (mem_sortByDistance _ _).mpr hcand

/-- Witness for C2 (amended): the 89.9%-utilized warehouse `wh899` is in the
candidate set and in the returned list. -/
theorem c2_warehouse_filtering_witness :
    (wh899, dist1 0 0 wh899.latitude wh899.longitude)
      ∈ warehouseCandidates dist1 [wh899] 0 0 "PET" 5 ∧
    ((warehouseCandidates dist1 [wh899] 0 0 "PET" 5).length ≤ 3 →
      (wh899, dist1 0 0 wh899.latitude wh899.longitude)
        ∈ find_nearest_warehouses dist1 [wh899] 0 0 "PET" 5 3) :=
  (c2_warehouse_filtering dist1 [wh899] 0 0 "PET" 5 3).2 wh899
    (by decide) (by decide) (by decide) (by decide) (by decide)

/-! ## C7 -/

/-- C7: `assign_warehouse` returns `None` (with the state untouched) exactly
when the nearest-search comes back empty; otherwise it builds an assignment
whose warehouse id, name, address and phone are copied from the first —
nearest, capacity-respecting — candidate of the sorted result, and appends it
to the assignment history. -/
theorem c7_assign_warehouse (dist : ℚ → ℚ → ℚ → ℚ → ℚ) (now : ℚ) (s : WState)
    (phone code : String) (latitude longitude : ℚ) (material : String)
    (estimated_kg : ℚ) :
    (find_nearest_warehouses dist s.warehouses latitude longitude material 5 3
        = [] →
      assign_warehouse dist now s phone code latitude longitude material
          estimated_kg = (none, s)) ∧
    (∀ (w : Warehouse) (d : ℚ) (rest : List (Warehouse × ℚ)),
      find_nearest_warehouses dist s.warehouses latitude longitude material 5 3
          = (w, d) :: rest →
      ∃ a, assign_warehouse dist now s phone code latitude longitude material
          estimated_kg
          = (some a, { s with assignments := s.assignments ++ [a] }) ∧
        a.warehouse_id = w.warehouse_id ∧ a.warehouse_name = w.name ∧
        a.warehouse_address = w.address ∧ a.warehouse_phone = w.phone ∧
        a.distance_km = d) ∧
    ((assign_warehouse dist now s phone code latitude longitude material
        estimated_kg).1 = none →
      find_nearest_warehouses dist s.warehouses latitude longitude material 5 3
        = []) := by
  refine ⟨?_, ?_, ?_⟩
  · intro h
    rw [assign_warehouse, h]
  · intro w d rest h
    rw [assign_warehouse, h]
    exact ⟨_, rfl, rfl, rfl, rfl, rfl, rfl⟩
  · intro h
    rcases hf : find_nearest_warehouses dist s.warehouses latitude longitude
        material 5 3 with - | p
    · rfl
    · rw [assign_warehouse, hf] at h
      simp at h

/-- The empty warehouse-system state. -/
def wsEmpty : WState := { warehouses := [], assignments := [] }

/-- A warehouse-system state holding only `wh90`. -/
def ws90 : WState := { warehouses := [wh90], assignments := [] }

/-- Witness for C7: on the empty registry the assignment is `None` with the
state untouched; on the registry holding `wh90` the first candidate is
assigned with its display fields copied. -/
theorem c7_assign_warehouse_witness :
    assign_warehouse dist1 0 wsEmpty "+51900000001" "#AB1234" 0 0 "PET" 8
      = (none, wsEmpty) ∧
    ∃ a, assign_warehouse dist1 0 ws90 "+51900000001" "#AB1234" 0 0 "PET" 8
        = (some a, { ws90 with assignments := ws90.assignments ++ [a] }) ∧
      a.warehouse_id = wh90.warehouse_id ∧ a.warehouse_name = wh90.name ∧
      a.warehouse_address = wh90.address ∧ a.warehouse_phone = wh90.phone ∧
      a.distance_km = 1 :=
  ⟨(c7_assign_warehouse dist1 0 wsEmpty "+51900000001" "#AB1234" 0 0 "PET" 8).1
      (by decide),
   (c7_assign_warehouse dist1 0 ws90 "+51900000001" "#AB1234" 0 0 "PET" 8).2.1
      wh90 1 [] (by decide)⟩
